import Mathlib

/-!
Shallow embedding of the qit command-line wrapper (src/main.rs) and
verification of its specification.

Strings are modelled as lists of characters.  External process invocations
(spawn + wait) are modelled by an outcome parameter per invocation; each
action handler returns its result together with the ordered list of argument
vectors it attempted to spawn.  The git2 library calls made by repo_status
are likewise modelled by explicit result parameters.
-/

/-- Rust string slices, modelled as lists of characters. -/
abbrev Str := List Char

/-- Convert a Lean string literal to the model type. -/
def str (s : String) : Str := s.data

/-- The code points of the Unicode White_Space property: U+0009..U+000D,
U+0020, U+0085, U+00A0, U+1680, U+2000..U+200A, U+2028, U+2029, U+202F,
U+205F and U+3000. -/
def whiteSpaceCodes : List Nat :=
  [0x9, 0xA, 0xB, 0xC, 0xD, 0x20, 0x85, 0xA0, 0x1680,
   0x2000, 0x2001, 0x2002, 0x2003, 0x2004, 0x2005, 0x2006, 0x2007,
   0x2008, 0x2009, 0x200A, 0x2028, 0x2029, 0x202F, 0x205F, 0x3000]

/-- Rust `char::is_whitespace`: membership in the Unicode White_Space
property. -/
def rustIsWhitespace (c : Char) : Bool := whiteSpaceCodes.contains c.toNat

/-- Rust `str::trim` (src/main.rs line 182): removes leading and trailing
Unicode White_Space characters. -/
def rustTrim (s : Str) : Str :=
  ((s.dropWhile rustIsWhitespace).reverse.dropWhile rustIsWhitespace).reverse

/-- The closed enumeration of commit types, exactly the possible values of the
`type` argument (src/main.rs lines 45-47) and the non-panicking arms of the
emoji match (lines 153-163). -/
inductive CommitType
  | chore
  | feature
  | refactor
  | fix
  | test
  | style
  | doc
  | deps
  | deploy
  | wip
deriving DecidableEq

/-- The string form of each commit type, as it appears on the command line and
in the formatted message. -/
def CommitType.toStr : CommitType → Str
  | .chore => str "chore"
  | .feature => str "feature"
  | .refactor => str "refactor"
  | .fix => str "fix"
  | .test => str "test"
  | .style => str "style"
  | .doc => str "doc"
  | .deps => str "deps"
  | .deploy => str "deploy"
  | .wip => str "wip"

/-- The emoji mapped to each commit type (src/main.rs lines 153-163). -/
def CommitType.emoji : CommitType → Str
  | .chore => str "🔨"
  | .feature => str "✨"
  | .refactor => str "♻️"
  | .fix => str "🐛"
  | .test => str "✅"
  | .style => str "🎨"
  | .doc => str "📝"
  | .deps => str "📦"
  | .deploy => str "🚀"
  | .wip => str "🚧"

/-- The dispatcher's possible-values list for the `type` argument
(src/main.rs lines 45-47). -/
def possibleValues : List Str :=
  [str "chore", str "feature", str "refactor", str "fix", str "test",
   str "style", str "doc", str "deps", str "deploy", str "wip"]

/-- The emoji lookup of the commit handler on a raw type string
(src/main.rs lines 153-167).  The wildcard arm panics with
"Unknown commit type"; the panic is modelled by `none`. -/
def emojiLookup (ty : Str) : Option Str :=
  if ty = str "chore" then some (str "🔨")
  else if ty = str "feature" then some (str "✨")
  else if ty = str "refactor" then some (str "♻️")
  else if ty = str "fix" then some (str "🐛")
  else if ty = str "test" then some (str "✅")
  else if ty = str "style" then some (str "🎨")
  else if ty = str "doc" then some (str "📝")
  else if ty = str "deps" then some (str "📦")
  else if ty = str "deploy" then some (str "🚀")
  else if ty = str "wip" then some (str "🚧")
  else none

/-- Errors produced by the git2 library, as seen by repo_status. -/
inductive Git2Error
  | notARepository
  | other (msg : Str)
deriving DecidableEq

/-- The error type of the handlers (Rust `Box<dyn Error>`), separated by
construction site: the distinct uncommitted-changes guard error
(src/main.rs line 223), spawn failures, wait failures, and git2 errors. -/
inductive QitError
  | uncommittedChanges
  | spawnFailed (msg : Str)
  | waitFailed (msg : Str)
  | gitError (e : Git2Error)
deriving DecidableEq

/-- The outcome of one external `Command` invocation: `spawn()` may fail,
`wait()` may fail, or the process runs and exits with a status code. -/
inductive ProcOutcome
  | spawnFail (msg : Str)
  | waitFail (msg : Str)
  | exit (code : Nat)
deriving DecidableEq

/-- An argument vector passed to an external process. -/
abbrev Argv := List Str

/-- The semantics of `cmd.spawn()?.wait()?` on one invocation: a spawn or
wait failure propagates as an error, otherwise the exit code is returned
(and, in the source, discarded unless explicitly inspected). -/
def runGit (o : ProcOutcome) : Except QitError Nat :=
  match o with
  | .spawnFail m => .error (.spawnFailed m)
  | .waitFail m => .error (.waitFailed m)
  | .exit code => .ok code

/-- A git2 status entry, modelled by its status bitflags. -/
structure Status where
  index_new : Bool := false
  index_modified : Bool := false
  index_deleted : Bool := false
  index_renamed : Bool := false
  index_typechange : Bool := false
  wt_new : Bool := false
  wt_modified : Bool := false
  wt_deleted : Bool := false
  wt_typechange : Bool := false
  wt_renamed : Bool := false
  ignored : Bool := false
  conflicted : Bool := false
deriving DecidableEq

/-- git2 `Status::is_ignored`: tests the IGNORED flag. -/
def Status.is_ignored (s : Status) : Bool := s.ignored

/-- repo_status (src/main.rs lines 267-275).  `openRes` is the result of
`Repository::open(".")` and `statusesRes` the result of `repo.statuses(..)`
with untracked entries included; both are external library calls.  The
function counts the entries whose status is not ignored. -/
def repo_status (openRes : Except Git2Error Unit)
    (statusesRes : Except Git2Error (List Status)) : Except QitError Nat :=
  match openRes with
  | .error e => .error (.gitError e)
  | .ok _ =>
    match statusesRes with
    | .error e => .error (.gitError e)
    | .ok entries => .ok ((entries.filter (fun s => !(s.is_ignored))).length)

/-- The optional area part of the formatted message: `(<area>)`. -/
def areaPart : Option Str → Str
  | none => []
  | some a => str "(" ++ a ++ str ")"

/-- The raw (untrimmed) commit message of src/main.rs lines 178-181:
`format!("{} {}({}): {}", emoji, type_, area, message)` when an area is
given, `format!("{} {}: {}", emoji, type_, message)` otherwise. -/
def rawMessage (emojiStr : Str) (t : CommitType) (area : Option Str)
    (message : Str) : Str :=
  match area with
  | some a => emojiStr ++ str " " ++ t.toStr ++ str "(" ++ a ++ str "): " ++ message
  | none => emojiStr ++ str " " ++ t.toStr ++ str ": " ++ message

/-- The formatted commit message (src/main.rs lines 151-182): the emoji is
replaced by the empty string exactly when the QIT_DISABLE_EMOJIS environment
variable (modelled by `disableEmojis`) holds the exact value "true", and the
resulting string is trimmed. -/
def commitMessage (t : CommitType) (area : Option Str) (message : Str)
    (disableEmojis : Option Str) : Str :=
  let emojiStr :=
    match disableEmojis with
    | some value => if value = str "true" then [] else t.emoji
    | none => t.emoji
  rustTrim (rawMessage emojiStr t area message)

/-- Argument vector of the staging step (src/main.rs lines 184-190). -/
def addArgv : Argv := [str "git", str "add", str "-A", str "*", str ".*"]

/-- Argument vector of the commit step (src/main.rs lines 191-201). -/
def commitArgv (t : CommitType) (area : Option Str) (message : Str)
    (noVerify : Bool) (disableEmojis : Option Str) : Argv :=
  [str "git", str "commit"] ++ (if noVerify then [str "--no-verify"] else [])
    ++ [str "-am", commitMessage t area message disableEmojis]

/-- The commit handler (src/main.rs lines 151-203): stage everything, then
commit with the formatted message.  Returns the result together with the
ordered list of attempted invocations. -/
def commit (t : CommitType) (area : Option Str) (message : Str)
    (noVerify : Bool) (disableEmojis : Option Str)
    (addO commitO : ProcOutcome) : Except QitError Unit × List Argv :=
  match runGit addO with
  | .error e => (.error e, [addArgv])
  | .ok _ =>
    match runGit commitO with
    | .error e => (.error e, [addArgv, commitArgv t area message noVerify disableEmojis])
    | .ok _ => (.ok (), [addArgv, commitArgv t area message noVerify disableEmojis])

/-- The log handler (src/main.rs lines 205-213). -/
def log (short : Bool) (o : ProcOutcome) : Except QitError Unit × List Argv :=
  let argv := [str "git", str "log"] ++ (if short then [str "--oneline"] else [])
  match runGit o with
  | .error e => (.error e, [argv])
  | .ok _ => (.ok (), [argv])

/-- Argument vector of the push invocation (src/main.rs lines 225-229). -/
def pushArgv (force : Bool) : Argv :=
  [str "git", str "push"] ++ (if force then [str "--force"] else [])

/-- The push handler (src/main.rs lines 215-232).  `statusRes` is the result
of the `repo_status()` call; an error result is treated as "no pending
changes".  When there are pending changes and force was not requested, the
distinct uncommitted-changes error is returned before any invocation. -/
def push (force : Bool) (statusRes : Except QitError Nat)
    (pushO : ProcOutcome) : Except QitError Unit × List Argv :=
  let pending_changes :=
    match statusRes with
    | .ok count => decide (count > 0)
    | .error _ => false
  if pending_changes && !force then
    (.error .uncommittedChanges, [])
  else
    match runGit pushO with
    | .error e => (.error e, [pushArgv force])
    | .ok _ => (.ok (), [pushArgv force])

/-- The undo handler (src/main.rs lines 234-242). -/
def undo (o : ProcOutcome) : Except QitError Unit × List Argv :=
  let argv := [str "git", str "reset", str "--soft", str "HEAD~1"]
  match runGit o with
  | .error e => (.error e, [argv])
  | .ok _ => (.ok (), [argv])

/-- Argument vector of the first checkout attempt (src/main.rs lines 245-250). -/
def checkoutArgv (branch : Str) : Argv := [str "git", str "checkout", branch]

/-- Argument vector of the create-and-checkout fallback (src/main.rs lines 255-259). -/
def createArgv (branch : Str) : Argv := [str "git", str "checkout", str "-b", branch]

/-- The switch-branch handler (src/main.rs lines 244-263): one checkout
attempt; on non-success exit status, one create-and-checkout fallback whose
exit status is not inspected. -/
def switch_branch (branch : Str) (checkoutO createO : ProcOutcome) :
    Except QitError Unit × List Argv :=
  match checkoutO with
  | .spawnFail m => (.error (.spawnFailed m), [checkoutArgv branch])
  | .waitFail m => (.error (.waitFailed m), [checkoutArgv branch])
  | .exit code =>
    if code = 0 then (.ok (), [checkoutArgv branch])
    else
      match runGit createO with
      | .error e => (.error e, [checkoutArgv branch, createArgv branch])
      | .ok _ => (.ok (), [checkoutArgv branch, createArgv branch])

/-- The top-level error handler (src/main.rs lines 138-147), modelled by the
process exit code it produces: an error is reported and the process exits
with status 1, success leaves the process to exit with status 0. -/
def handle (res : Except QitError Unit) : Nat :=
  match res with
  | .ok _ => 0
  | .error _ => 1

/-- What the dispatcher routes one invocation to. -/
inductive Dispatched
  | runCommit
  | runLog
  | runPush
  | runUndo
  | runSwitch
  | printStatus
  | usageError
deriving DecidableEq

/-- Modelled from the spec: command-line parsing is performed by the clap
library, which is outside src/.  Per the spec (section 4.1) the dispatcher
"fails fast with a usage error and non-zero exit if the first token does not
match a known subcommand or alias".  The source registers exactly the five
subcommands commit|c, push|p, undo|u, log|l, switch|s (src/main.rs lines
12-111); the wildcard arm of the dispatch match (line 133), which prints
`repo_status()`, is therefore reached only when no subcommand token was
given at all. -/
def dispatch (args : List Str) : Dispatched :=
  match args with
  | [] => .printStatus
  | tok :: _ =>
    if tok = str "commit" ∨ tok = str "c" then .runCommit
    else if tok = str "push" ∨ tok = str "p" then .runPush
    else if tok = str "undo" ∨ tok = str "u" then .runUndo
    else if tok = str "log" ∨ tok = str "l" then .runLog
    else if tok = str "switch" ∨ tok = str "s" then .runSwitch
    else .usageError

/-- Spec-side predicate (section 4.6): the entry status "indicates
modification, addition, deletion, or being untracked".  Untracked is WT_NEW,
addition is INDEX_NEW, and modification and deletion each have an index and
a worktree flag. -/
def specIndicatesChange (s : Status) : Bool :=
  s.index_new || s.index_modified || s.index_deleted ||
    s.wt_new || s.wt_modified || s.wt_deleted

/-- Spec-side count (section 4.6): the number of entries indicating
modification, addition, deletion, or untracked state, excluding entries
marked as ignored. -/
def specPendingCount (entries : List Status) : Nat :=
  (entries.filter (fun s => specIndicatesChange s && !(s.is_ignored))).length

/-! ### Helper lemmas about `rustTrim` -/

theorem dropWhile_eq_self_of_head (p : Char → Bool) (l : Str) (a : Char)
    (h1 : l.head? = some a) (h2 : p a = false) : l.dropWhile p = l := by
  cases l with
  | nil => rfl
  | cons b t =>
    simp only [List.head?_cons, Option.some.injEq] at h1
    subst h1
    simp [List.dropWhile_cons, h2]

theorem head_append_some {l₁ : Str} (l₂ : Str) {a : Char}
    (h : l₁.head? = some a) : (l₁ ++ l₂).head? = some a := by
  cases l₁ with
  | nil => simp at h
  | cons b t => simpa using h

theorem getLast_append_some (l₁ : Str) {l₂ : Str} {c : Char}
    (h : l₂.getLast? = some c) : (l₁ ++ l₂).getLast? = some c := by
  rw [List.getLast?_append, h]
  rfl

theorem getLast_cons_some (a : Char) {l : Str} {c : Char}
    (h : l.getLast? = some c) : (a :: l).getLast? = some c :=
  getLast_append_some [a] h

theorem rustTrim_eq_self (l : Str) (a c : Char) (h1 : l.head? = some a)
    (ha : rustIsWhitespace a = false) (h2 : l.getLast? = some c)
    (hc : rustIsWhitespace c = false) : rustTrim l = l := by
  unfold rustTrim
  rw [dropWhile_eq_self_of_head _ l a h1 ha,
    dropWhile_eq_self_of_head _ l.reverse c (by rw [List.head?_reverse]; exact h2) hc,
    List.reverse_reverse]

theorem rustTrim_cons_ws (w : Char) (l : Str) (h : rustIsWhitespace w = true) :
    rustTrim (w :: l) = rustTrim l := by
  unfold rustTrim
  rw [List.dropWhile_cons, if_pos h]

theorem emoji_head (t : CommitType) :
    ∃ a, t.emoji.head? = some a ∧ rustIsWhitespace a = false := by
  cases t <;> exact ⟨_, rfl, by decide⟩

theorem toStr_head (t : CommitType) :
    ∃ b, t.toStr.head? = some b ∧ rustIsWhitespace b = false := by
  cases t <;> exact ⟨_, rfl, by decide⟩

theorem str_parenColon : str "): " = str ")" ++ str ": " := rfl

theorem rustTrim_raw (e : Str) (t : CommitType) (area : Option Str) (m : Str)
    (a c : Char) (he : e.head? = some a) (ha : rustIsWhitespace a = false)
    (hm : m.getLast? = some c) (hc : rustIsWhitespace c = false) :
    rustTrim (rawMessage e t area m) =
      e ++ str " " ++ t.toStr ++ areaPart area ++ str ": " ++ m := by
  cases area with
  | none =>
    show rustTrim (e ++ str " " ++ t.toStr ++ str ": " ++ m) = _
    have h1 : (e ++ str " " ++ t.toStr ++ str ": " ++ m).head? = some a :=
      head_append_some _ (head_append_some _ (head_append_some _
        (head_append_some _ he)))
    have h2 : (e ++ str " " ++ t.toStr ++ str ": " ++ m).getLast? = some c :=
      getLast_append_some _ hm
    rw [rustTrim_eq_self _ a c h1 ha h2 hc]
    simp [areaPart]
  | some ar =>
    show rustTrim (e ++ str " " ++ t.toStr ++ str "(" ++ ar ++ str "): " ++ m) = _
    have h1 : (e ++ str " " ++ t.toStr ++ str "(" ++ ar ++ str "): " ++ m).head? = some a :=
      head_append_some _ (head_append_some _ (head_append_some _
        (head_append_some _ (head_append_some _ (head_append_some _ he)))))
    have h2 : (e ++ str " " ++ t.toStr ++ str "(" ++ ar ++ str "): " ++ m).getLast? = some c :=
      getLast_append_some _ hm
    rw [rustTrim_eq_self _ a c h1 ha h2 hc]
    simp [areaPart, str_parenColon, List.append_assoc]

theorem rustTrim_raw_noemoji (t : CommitType) (area : Option Str) (m : Str)
    (c : Char) (hm : m.getLast? = some c) (hc : rustIsWhitespace c = false) :
    rustTrim (rawMessage [] t area m) = t.toStr ++ areaPart area ++ str ": " ++ m := by
  obtain ⟨b, htb, hbw⟩ := toStr_head t
  cases area with
  | none =>
    have h1 : rawMessage [] t none m = ' ' :: (t.toStr ++ str ": " ++ m) := rfl
    have h2 : (t.toStr ++ str ": " ++ m).head? = some b :=
      head_append_some _ (head_append_some _ htb)
    have h3 : (t.toStr ++ str ": " ++ m).getLast? = some c :=
      getLast_append_some _ hm
    rw [h1, rustTrim_cons_ws _ _ (by decide), rustTrim_eq_self _ b c h2 hbw h3 hc]
    simp [areaPart]
  | some ar =>
    have h1 : rawMessage [] t (some ar) m =
        ' ' :: (t.toStr ++ str "(" ++ ar ++ str "): " ++ m) := rfl
    have h2 : (t.toStr ++ str "(" ++ ar ++ str "): " ++ m).head? = some b :=
      head_append_some _ (head_append_some _ (head_append_some _
        (head_append_some _ htb)))
    have h3 : (t.toStr ++ str "(" ++ ar ++ str "): " ++ m).getLast? = some c :=
      getLast_append_some _ hm
    rw [h1, rustTrim_cons_ws _ _ (by decide), rustTrim_eq_self _ b c h2 hbw h3 hc]
    simp [areaPart, str_parenColon, List.append_assoc]

/-- C1 (corrected): for every commit type, optional area, and message whose
last character is not a Unicode White_Space character, the formatted message is
`<glyph> <type>: <message>` (resp. `<glyph> <type>(<area>): <message>`) when
the emoji-suppression toggle is not the exact string "true", and exactly
`<type>: <message>` (resp. `<type>(<area>): <message>`), with no leading
glyph and no leading space, when the toggle is "true".  (The original claim,
quantified over every message, fails because the formatter trims trailing
whitespace off the message; see the counterexample.) -/
theorem commitMessage_formats (t : CommitType) (area : Option Str) (m : Str)
    (c : Char) (hm : m.getLast? = some c) (hc : rustIsWhitespace c = false)
    (toggle : Option Str) (ht : toggle ≠ some (str "true")) :
    commitMessage t area m toggle =
      t.emoji ++ str " " ++ t.toStr ++ areaPart area ++ str ": " ++ m ∧
    commitMessage t area m (some (str "true")) =
      t.toStr ++ areaPart area ++ str ": " ++ m := by
  obtain ⟨a, hea, haw⟩ := emoji_head t
  constructor
  · rcases toggle with _ | v
    · exact rustTrim_raw t.emoji t area m a c hea haw hm hc
    · have hv : ¬(v = str "true") := fun h => ht (by rw [h])
      show rustTrim (rawMessage (if v = str "true" then [] else t.emoji) t area m) = _
      rw [if_neg hv]
      exact rustTrim_raw t.emoji t area m a c hea haw hm hc
  · show rustTrim (rawMessage (if str "true" = str "true" then [] else t.emoji) t area m) = _
    rw [if_pos rfl]
    exact rustTrim_raw_noemoji t area m c hm hc

/-- Witness for C1 at a concrete input: type "feature", no area, message
"Add thing", toggle unset. -/
theorem commitMessage_formats_witness :
    (str "Add thing").getLast? = some 'g' ∧ rustIsWhitespace 'g' = false ∧
    commitMessage CommitType.feature none (str "Add thing") none =
      CommitType.feature.emoji ++ str " " ++ CommitType.feature.toStr ++
        areaPart none ++ str ": " ++ str "Add thing" :=
  ⟨rfl, by decide,
    (commitMessage_formats CommitType.feature none (str "Add thing") 'g' rfl
      (by decide) none (by simp)).1⟩

/-- C1 counterexample: with toggle "true", type "fix", area "cli" and the
message "Fix bug " (trailing space), the formatted message is not
`fix(cli): Fix bug ` as the claim requires; the trailing whitespace is
trimmed away. -/
theorem commitMessage_trailing_ws_cex :
    commitMessage CommitType.fix (some (str "cli")) (str "Fix bug ")
        (some (str "true")) ≠ str "fix(cli): Fix bug " ∧
    commitMessage CommitType.fix (some (str "cli")) (str "Fix bug ")
        (some (str "true")) = str "fix(cli): Fix bug" := by decide

/-- C2 (confirmed): when the pending-change count is determined to be
positive and force was not requested, push returns the distinct
uncommitted-changes error and attempts no external invocation. -/
theorem push_uncommitted_guard (count : Nat) (o : ProcOutcome) (hc : 0 < count) :
    push false (Except.ok count) o = (Except.error QitError.uncommittedChanges, []) := by
  simp [push, hc]

/-- Witness for C2 at a pending-change count of 3. -/
theorem push_uncommitted_guard_witness :
    0 < 3 ∧ push false (Except.ok 3) (ProcOutcome.exit 0) =
      (Except.error QitError.uncommittedChanges, []) :=
  ⟨by decide, push_uncommitted_guard 3 (ProcOutcome.exit 0) (by decide)⟩

/-- C6 (confirmed): when the status query fails, push behaves exactly as if
the pending-change count were zero; the guard does not fire and the
underlying push is invoked. -/
theorem push_status_error_permissive (e : QitError) (force : Bool) (o : ProcOutcome) :
    push force (Except.error e) o = push force (Except.ok 0) o ∧
    (push force (Except.error e) o).2 = [pushArgv force] := by
  refine ⟨rfl, ?_⟩
  cases o <;> rfl

/-- C7 (confirmed): a forced push always reaches the external invocation and
carries the force flag regardless of the count; an unforced push with a zero
count is invoked without the force flag and without a precondition failure. -/
theorem push_force_and_clean_runs :
    (∀ statusRes o, (push true statusRes o).2 = [pushArgv true]) ∧
    (∀ o, (push false (Except.ok 0) o).2 = [pushArgv false] ∧
      (push false (Except.ok 0) o).1 ≠ Except.error QitError.uncommittedChanges) := by
  constructor
  · intro statusRes o
    rcases statusRes with _ | count <;> cases o <;>
      simp [push, runGit, Bool.and_false]
  · intro o
    cases o <;> simp [push, runGit]

/-- C3 (corrected): staging and committing are two external invocations run
in strict sequence; when the staging process cannot be spawned or awaited,
the commit invocation does not run and the error propagates.  (The original
claim also required a non-zero exit status of staging to stop the commit;
the code discards the staging exit status, see the counterexample.) -/
theorem commit_staging_sequence (t : CommitType) (area : Option Str)
    (message : Str) (nv : Bool) (env : Option Str) (addO cO : ProcOutcome) :
    (∀ m, addO = ProcOutcome.spawnFail m →
      commit t area message nv env addO cO =
        (Except.error (QitError.spawnFailed m), [addArgv])) ∧
    (∀ m, addO = ProcOutcome.waitFail m →
      commit t area message nv env addO cO =
        (Except.error (QitError.waitFailed m), [addArgv])) ∧
    (∀ code, addO = ProcOutcome.exit code →
      (commit t area message nv env addO cO).2 =
        [addArgv, commitArgv t area message nv env]) := by
  refine ⟨?_, ?_, ?_⟩ <;> (intro x hx; subst hx; cases cO <;> rfl)

/-- Witness for C3: a staging spawn failure stops the action before the
commit invocation. -/
theorem commit_staging_sequence_witness :
    commit CommitType.chore none (str "m") false none
        (ProcOutcome.spawnFail (str "enoent")) (ProcOutcome.exit 0) =
      (Except.error (QitError.spawnFailed (str "enoent")), [addArgv]) :=
  (commit_staging_sequence CommitType.chore none (str "m") false none
    (ProcOutcome.spawnFail (str "enoent")) (ProcOutcome.exit 0)).1
    (str "enoent") rfl

/-- C3 counterexample: the staging step exits with status 1, yet the commit
invocation still runs and the action reports success. -/
theorem commit_ignores_staging_exit_cex :
    (commit CommitType.fix none (str "msg") false none
      (ProcOutcome.exit 1) (ProcOutcome.exit 0)).1 = Except.ok () ∧
    commitArgv CommitType.fix none (str "msg") false none ∈
      (commit CommitType.fix none (str "msg") false none
        (ProcOutcome.exit 1) (ProcOutcome.exit 0)).2 := ⟨rfl, by simp [commit, runGit]⟩

/-- C4 (corrected): switch-branch first attempts exactly one checkout; on
successful exit no create invocation occurs and the action succeeds; on
non-zero exit exactly one create-and-checkout invocation follows; a spawn
failure or a wait failure of either invocation propagates as an error.  (The
original
claim also required a failing create invocation to propagate an error; the
code does not inspect the exit status of the create invocation and reports
success, see the counterexample.) -/
theorem switch_branch_fallback (branch : Str) (coO crO : ProcOutcome) :
    ((switch_branch branch coO crO).2).head? = some (checkoutArgv branch) ∧
    (coO = ProcOutcome.exit 0 →
      switch_branch branch coO crO = (Except.ok (), [checkoutArgv branch])) ∧
    (∀ code, coO = ProcOutcome.exit code → code ≠ 0 →
      (switch_branch branch coO crO).2 =
        [checkoutArgv branch, createArgv branch]) ∧
    (∀ code m, coO = ProcOutcome.exit code → code ≠ 0 →
      crO = ProcOutcome.spawnFail m →
      (switch_branch branch coO crO).1 =
        Except.error (QitError.spawnFailed m)) ∧
    (∀ m, coO = ProcOutcome.spawnFail m →
      switch_branch branch coO crO =
        (Except.error (QitError.spawnFailed m), [checkoutArgv branch])) ∧
    (∀ m, coO = ProcOutcome.waitFail m →
      switch_branch branch coO crO =
        (Except.error (QitError.waitFailed m), [checkoutArgv branch])) ∧
    (∀ code m, coO = ProcOutcome.exit code → code ≠ 0 →
      crO = ProcOutcome.waitFail m →
      (switch_branch branch coO crO).1 =
        Except.error (QitError.waitFailed m)) := by
  refine ⟨?_, ?_, ?_, ?_, ?_, ?_, ?_⟩
  · cases coO with
    | spawnFail m => rfl
    | waitFail m => rfl
    | exit code =>
      by_cases h : code = 0
      · simp [switch_branch, h]
      · cases crO <;> simp [switch_branch, h, runGit]
  · intro h; subst h; rfl
  · intro code h hne; subst h
    cases crO <;> simp [switch_branch, hne, runGit]
  · intro code m h hne hcr; subst h; subst hcr
    simp [switch_branch, hne, runGit]
  · intro m h; subst h; rfl
  · intro m h; subst h; rfl
  · intro code m h hne hcr; subst h; subst hcr
    simp [switch_branch, hne, runGit]

/-- Witness for C4: a failing checkout (exit 1) is followed by exactly one
create-and-checkout invocation. -/
theorem switch_branch_fallback_witness :
    (switch_branch (str "dev") (ProcOutcome.exit 1) (ProcOutcome.exit 0)).2 =
      [checkoutArgv (str "dev"), createArgv (str "dev")] :=
  (switch_branch_fallback (str "dev") (ProcOutcome.exit 1)
    (ProcOutcome.exit 0)).2.2.1 1 rfl (by decide)

/-- C4 counterexample: the checkout fails (exit 1) and the create invocation
itself exits with status 1, yet the action reports success instead of
propagating an error. -/
theorem switch_branch_create_exit_cex :
    switch_branch (str "b") (ProcOutcome.exit 1) (ProcOutcome.exit 1) =
      (Except.ok (), [checkoutArgv (str "b"), createArgv (str "b")]) := rfl

theorem push_failure_surfaces (force : Bool) (statusRes : Except QitError Nat)
    (e0 : QitError) (o : ProcOutcome) (ho : runGit o = Except.error e0) :
    ∃ e, (push force statusRes o).1 = Except.error e := by
  rcases statusRes with e1 | count
  · refine ⟨e0, ?_⟩
    cases force <;> simp [push, ho]
  · by_cases hc : count > 0
    · cases force
      · exact ⟨QitError.uncommittedChanges, by simp [push, hc]⟩
      · exact ⟨e0, by simp [push, hc, ho]⟩
    · exact ⟨e0, by simp [push, hc, ho]⟩

/-- C5 (corrected): for every action handler, a failure to spawn the
external process, or a failure to wait on it, surfaces as an error, and the
top level turns every error into a non-zero process exit.  (The original
claim also required a process that runs but exits with failure to surface as
an error; outside the first checkout of switch-branch the code discards exit
statuses and reports success, see the counterexample.) -/
theorem handlers_surface_spawn_failures (m : Str) (t : CommitType)
    (area : Option Str) (message : Str) (nv short force : Bool)
    (env : Option Str) (branch : Str) (statusRes : Except QitError Nat)
    (o : ProcOutcome) :
    (undo (ProcOutcome.spawnFail m)).1 = Except.error (QitError.spawnFailed m) ∧
    (undo (ProcOutcome.waitFail m)).1 = Except.error (QitError.waitFailed m) ∧
    (log short (ProcOutcome.spawnFail m)).1 =
      Except.error (QitError.spawnFailed m) ∧
    (log short (ProcOutcome.waitFail m)).1 =
      Except.error (QitError.waitFailed m) ∧
    (commit t area message nv env (ProcOutcome.spawnFail m) o).1 =
      Except.error (QitError.spawnFailed m) ∧
    (commit t area message nv env (ProcOutcome.waitFail m) o).1 =
      Except.error (QitError.waitFailed m) ∧
    (switch_branch branch (ProcOutcome.spawnFail m) o).1 =
      Except.error (QitError.spawnFailed m) ∧
    (switch_branch branch (ProcOutcome.waitFail m) o).1 =
      Except.error (QitError.waitFailed m) ∧
    (∃ e, (push force statusRes (ProcOutcome.spawnFail m)).1 = Except.error e) ∧
    (∃ e, (push force statusRes (ProcOutcome.waitFail m)).1 = Except.error e) ∧
    (∀ e, handle (Except.error e) = 1) := by
  refine ⟨rfl, rfl, rfl, rfl, rfl, rfl, rfl, rfl, ?_, ?_, fun e => rfl⟩
  · exact push_failure_surfaces force statusRes (QitError.spawnFailed m) _ rfl
  · exact push_failure_surfaces force statusRes (QitError.waitFailed m) _ rfl

/-- C5 counterexample: the undo invocation exits with status 1 (failure),
yet the handler reports success and the top level exits with status 0. -/
theorem undo_exit_failure_cex :
    (undo (ProcOutcome.exit 1)).1 = Except.ok () ∧
    handle ((undo (ProcOutcome.exit 1)).1) = 0 := ⟨rfl, rfl⟩

/-- A status entry whose only flag is CONFLICTED. -/
def conflictedEntry : Status :=
  Status.mk false false false false false false false false false false false true

/-- A status entry whose only flag is WT_MODIFIED. -/
def wtModifiedEntry : Status :=
  Status.mk false false false false false false true false false false false false

/-- C8 (corrected): a failure to open the repository (in particular the
not-a-repository error) propagates as a distinct error, and, provided every
entry reported by the status query indicates modification, addition,
deletion or untracked state or is marked ignored, the returned count equals
the count of the non-ignored such entries.  (The original claim, without
that proviso, fails: the code filters only on the ignored flag, so an entry
carrying only another status, such as CONFLICTED, is also counted; see the
counterexample.) -/
theorem repo_status_counts (e2 : Git2Error)
    (sRes : Except Git2Error (List Status)) (entries : List Status)
    (h : ∀ s ∈ entries, specIndicatesChange s = true ∨ s.ignored = true) :
    repo_status (Except.error e2) sRes = Except.error (QitError.gitError e2) ∧
    repo_status (Except.ok ()) (Except.ok entries) =
      Except.ok (specPendingCount entries) := by
  refine ⟨rfl, ?_⟩
  simp only [repo_status, specPendingCount, Except.ok.injEq]
  congr 1
  apply List.filter_congr
  intro s hs
  rcases h s hs with h1 | h1 <;> simp [Status.is_ignored, h1]

/-- Witness for C8: one worktree-modified entry yields a count of one. -/
theorem repo_status_counts_witness :
    (∀ s ∈ [wtModifiedEntry], specIndicatesChange s = true ∨ s.ignored = true) ∧
    repo_status (Except.ok ()) (Except.ok [wtModifiedEntry]) =
      Except.ok (specPendingCount [wtModifiedEntry]) :=
  ⟨by decide, (repo_status_counts Git2Error.notARepository (Except.ok [])
    [wtModifiedEntry] (by decide)).2⟩

/-- C8 counterexample: a single entry whose only status flag is CONFLICTED
(git2 reports conflicted entries by default) is counted by the code, while
the claim's enumeration of modification, addition, deletion and untracked
state yields a count of zero. -/
theorem repo_status_conflicted_cex :
    repo_status (Except.ok ()) (Except.ok [conflictedEntry]) = Except.ok 1 ∧
    specPendingCount [conflictedEntry] = 0 := ⟨rfl, rfl⟩

/-- C9 (corrected): invoking the program with no subcommand at all prints
the pending-change count; the name "status" is not among the registered
subcommands or aliases, so invoking the program with the token "status"
produces a usage error instead.  (The original claim expected the token
"status" to print the count; see the counterexample.) -/
theorem dispatch_no_subcommand_status :
    dispatch [] = Dispatched.printStatus ∧
    dispatch [str "status"] = Dispatched.usageError := by
  exact ⟨rfl, by decide⟩

/-- C9 counterexample: the token "status" is routed to a usage error, not to
printing the pending-change count. -/
theorem dispatch_status_usage_cex :
    dispatch [str "status"] = Dispatched.usageError ∧
    dispatch [str "status"] ≠ Dispatched.printStatus := by decide

/-- C10 (confirmed): every commit-type string in the dispatcher's
possible-values list is mapped to a glyph by the emoji lookup; the panic arm
is unreachable for accepted types. -/
theorem emojiLookup_total (ty : Str) (h : ty ∈ possibleValues) :
    (emojiLookup ty).isSome = true := by
  fin_cases h <;> rfl

/-- Witness for C10 at the accepted type "chore". -/
theorem emojiLookup_total_witness :
    str "chore" ∈ possibleValues ∧ (emojiLookup (str "chore")).isSome = true :=
  ⟨by decide, emojiLookup_total (str "chore") (by decide)⟩
